import Mathlib

/-!
Storage pools and loopback devices of the libvirt provider.

A shallow embedding of `libvirt/resource_libvirt_pool.go` (the builder of
pool definitions and the pool lifecycle controller) and of the loopback
device helpers `NewLoopDevice` and `LoopDevice.Destroy`.

The virtualization daemon and the kernel are external collaborators.  They are
embedded as interfaces over an arbitrary state type: every call takes the
collaborator's state and returns its answer together with the next state, and
every call the program makes is appended to a call log.  Theorems quantify
over all such collaborators; concrete ones are given for the examples.
-/

namespace libvirt

/-! ## Data model -/

/-- The attributes of `schema.ResourceData` for the `libvirt_pool` schema,
together with the resource identifier (`d.Id()`). The field `type_` is the
attribute `"type"`. -/
structure ResourceData where
  id : String
  name : String
  type_ : String
  capacity : Nat
  allocation : Nat
  available : Nat
  xslt : Option String
  source_devices : List String
  path : String
deriving DecidableEq, Repr

/-- The call `d.SetId(id)`. -/
def ResourceData.SetId (d : ResourceData) (id : String) : ResourceData :=
  { d with id := id }

/-- The struct `libvirtxml.StoragePoolSourceDevice` (only `Path` is used). -/
structure StoragePoolSourceDevice where
  Path : String
deriving DecidableEq, Repr

/-- The struct `libvirtxml.StoragePoolSource`; `Device = none` is the nil slice. -/
structure StoragePoolSource where
  Device : Option (List StoragePoolSourceDevice)
deriving DecidableEq, Repr

/-- The struct `libvirtxml.StoragePoolTarget` (only `Path` is used). -/
structure StoragePoolTarget where
  Path : String
deriving DecidableEq, Repr

/-- The struct `libvirtxml.StoragePool`; `Target` and `Source` are pointers,
`none` is nil. The field `Type_` is the Go field `Type`. -/
structure StoragePool where
  Type_ : String
  Name : String
  Target : Option StoragePoolTarget
  Source : Option StoragePoolSource
deriving DecidableEq, Repr

/-! ## Pool definition builder -/

/-- The message of the missing-path error. -/
def errMissingPath : String :=
  "\"path\" attribute is required for storage pools of type \"dir\""

/-- The message of the missing-source-devices error. -/
def errMissingSourceDevices : String :=
  "Non-empty \"source_devices\" attribute is required for storage pools of type \"logical\""

/-- The message of the not-supported-yet error for a pool type. -/
def errNotSupported (poolType : String) : String :=
  "Libvirt storage pools of type '" ++ poolType ++ "' are not supported yet"

/-- The message of the unrecognized-type error for a pool type. -/
def errUnrecognized (poolType : String) : String :=
  "Unrecognized pool type '" ++ poolType ++ "'"

/-- The loop of `buildLibvirtStoragePoolDef` over `sourceDevicesPaths`: start
from the empty slice and append one device per configured path. -/
def appendSourceDevices (sourceDevicesPaths : List String) : List StoragePoolSourceDevice :=
  sourceDevicesPaths.foldl (fun sourceDevices path => sourceDevices ++ [⟨path⟩]) []

/-- The function `buildLibvirtStoragePoolDef`: the pool definition for the
record, or the validation error. -/
def buildLibvirtStoragePoolDef (d : ResourceData) : Except String StoragePool :=
  let poolName := d.name
  let poolType := d.type_
  match poolType with
  | "dir" =>
    let poolPath := d.path
    if poolPath = "" then
      .error errMissingPath
    else
      .ok { Type_ := "dir", Name := poolName, Target := some { Path := poolPath }, Source := none }
  | "logical" =>
    let sourceDevicesPaths := d.source_devices
    if sourceDevicesPaths.length = 0 then
      .error errMissingSourceDevices
    else
      let sourceDevices := appendSourceDevices sourceDevicesPaths
      .ok { Type_ := "logical", Name := poolName, Target := none,
            Source := some { Device := some sourceDevices } }
  | "fs" | "netfs" | "disk" | "scsi" | "iscsi" | "iscsi-direct" | "mpath" | "rbd"
  | "sheepdog" | "gluster" | "zfs" | "vstorage" =>
    .error (errNotSupported poolType)
  | _ => .error (errUnrecognized poolType)

/-- The pool types the builder recognizes but does not implement. -/
def unsupportedTypes : List String :=
  ["fs", "netfs", "disk", "scsi", "iscsi", "iscsi-direct", "mpath", "rbd",
   "sheepdog", "gluster", "zfs", "vstorage"]

/-! ## The virtualization daemon -/

/-- A daemon error (`libvirt.Error`): its code and the text `Error()` renders. -/
structure VirError where
  Code : Nat
  Error : String
deriving DecidableEq, Repr

/-- The libvirt error number `ERR_NO_STORAGE_POOL` (storage pool not found). -/
def ERR_NO_STORAGE_POOL : Nat := 49

/-- A pool handle (`*libvirt.StoragePool`) as the daemon names it. -/
abbrev StoragePoolRef := Nat

/-- The struct `libvirt.StoragePoolInfo` (the three sizes that are read). -/
structure StoragePoolInfo where
  Capacity : Nat
  Allocation : Nat
  Available : Nat
deriving DecidableEq, Repr

/-- The daemon client (`*libvirt.Connect` and the methods of the pool handles
it returns) over a daemon state `σ`: every method maps the state before the
call to its answer and the state after it. A lookup or a define answers with
either a handle or an error, never both. -/
structure Connect (σ : Type) where
  LookupStoragePoolByName : σ → String → Except VirError StoragePoolRef × σ
  LookupStoragePoolByUUIDString : σ → String → Except VirError StoragePoolRef × σ
  StoragePoolDefineXML : σ → String → Nat → Except VirError StoragePoolRef × σ
  Build : σ → StoragePoolRef → Nat → Option VirError × σ
  SetAutostart : σ → StoragePoolRef → Bool → Option VirError × σ
  Create : σ → StoragePoolRef → Nat → Option VirError × σ
  Refresh : σ → StoragePoolRef → Nat → Option VirError × σ
  GetUUIDString : σ → StoragePoolRef → Except VirError String × σ
  GetName : σ → StoragePoolRef → Except VirError String × σ
  GetInfo : σ → StoragePoolRef → Except VirError StoragePoolInfo × σ
  GetXMLDesc : σ → StoragePoolRef → Nat → Except VirError String × σ
  Free : σ → StoragePoolRef → σ

/-- The struct `Client`: `libvirt = none` is the nil connection. The per-name
mutex `poolMutexKV` has no effect on a single sequential run and is left out. -/
structure Client (σ : Type) where
  libvirt : Option (Connect σ)

/-- The calls a run can make to the daemon, as they appear in the call log.
`Undefine` and `Destroy` are the daemon's removal calls; `poolWaitForExists`
stands for the whole existence poll. -/
inductive DaemonCall where
  | LookupStoragePoolByName (name : String)
  | LookupStoragePoolByUUIDString (uuid : String)
  | StoragePoolDefineXML (xml : String) (flags : Nat)
  | Build (pool : StoragePoolRef) (flags : Nat)
  | SetAutostart (pool : StoragePoolRef) (autostart : Bool)
  | Create (pool : StoragePoolRef) (flags : Nat)
  | Refresh (pool : StoragePoolRef) (flags : Nat)
  | GetUUIDString (pool : StoragePoolRef)
  | GetName (pool : StoragePoolRef)
  | GetInfo (pool : StoragePoolRef)
  | GetXMLDesc (pool : StoragePoolRef) (flags : Nat)
  | Free (pool : StoragePoolRef)
  | Undefine (pool : StoragePoolRef)
  | Destroy (pool : StoragePoolRef)
  | poolWaitForExists (uuid : String)
deriving DecidableEq, Repr

/-- The functions and constants of the package that `resource_libvirt_pool.go`
uses and that live in other files: the text of the nil-connection error, the
serializer, the stylesheet transform, the existence poll (it works on the
daemon) and the decoder `xml.Unmarshal` into a zero `StoragePool` (it returns
the struct as far as it was filled, and the error if any). -/
structure Collaborators (σ : Type) where
  LibVirtConIsNil : String
  xmlMarshallIndented : StoragePool → Except String String
  transformResourceXML : String → ResourceData → Except String String
  poolWaitForExists : σ → String → Option String × σ
  xmlUnmarshal : String → StoragePool × Option String

/-- The daemon as a run sees it: its state and the log of the calls made. -/
structure World (σ : Type) where
  daemon : σ
  calls : List DaemonCall

/-- The world after one more call that left the daemon in state `s`. -/
def World.after {σ : Type} (w : World σ) (c : DaemonCall) (s : σ) : World σ :=
  { daemon := s, calls := w.calls ++ [c] }

/-- What a resource function leaves behind: the returned error (`none` is
nil), the caller's record and the world. -/
structure Outcome (σ : Type) where
  err : Option String
  d : ResourceData
  w : World σ

/-! ## Pool lifecycle controller -/

/-- The function `resourceLibvirtPoolRead`. -/
def resourceLibvirtPoolRead {σ : Type} (X : Collaborators σ) (d : ResourceData)
    (client : Client σ) (w : World σ) : Outcome σ :=
  match client.libvirt with
  | none => ⟨some X.LibVirtConIsNil, d, w⟩
  | some virConn =>
    match virConn.LookupStoragePoolByUUIDString w.daemon d.id with
    | (.error _, s) =>
      -- pool == nil
      ⟨none, d.SetId "", w.after (.LookupStoragePoolByUUIDString d.id) s⟩
    | (.ok pool, s) =>
      let w := w.after (.LookupStoragePoolByUUIDString d.id) s
      let out : Outcome σ :=
        match virConn.GetName w.daemon pool with
        | (.error err, s) =>
          ⟨some ("error retrieving pool name: " ++ err.Error), d, w.after (.GetName pool) s⟩
        | (.ok poolName, s) =>
          let w := w.after (.GetName pool) s
          let d := { d with name := poolName }
          match virConn.GetInfo w.daemon pool with
          | (.error err, s) =>
            ⟨some ("error retrieving pool info: " ++ err.Error), d, w.after (.GetInfo pool) s⟩
          | (.ok info, s) =>
            let w := w.after (.GetInfo pool) s
            let d := { d with capacity := info.Capacity }
            let d := { d with allocation := info.Allocation }
            let d := { d with available := info.Available }
            match virConn.GetXMLDesc w.daemon pool 0 with
            | (.error err, s) =>
              ⟨some ("could not get XML description for pool " ++ poolName ++ ": " ++ err.Error),
                d, w.after (.GetXMLDesc pool 0) s⟩
            | (.ok poolDefXML, s) =>
              let w := w.after (.GetXMLDesc pool 0) s
              match X.xmlUnmarshal poolDefXML with
              | (poolDef, some err) =>
                ⟨some ("could not get a pool definition from XML for " ++ poolDef.Name ++ ": " ++ err),
                  d, w⟩
              | (poolDef, none) =>
                let poolPath : String :=
                  match poolDef.Target with
                  | some target => if target.Path ≠ "" then target.Path else ""
                  | none => ""
                let d := if poolPath = "" then d else { d with path := poolPath }
                let d :=
                  match poolDef.Source with
                  | some source =>
                    match source.Device with
                    | some devices =>
                      let sourceDevicesPaths :=
                        devices.foldl (fun paths device => paths ++ [device.Path]) []
                      { d with source_devices := sourceDevicesPaths }
                    | none => d
                  | none => d
                ⟨none, d, w⟩
      -- defer pool.Free()
      ⟨out.err, out.d, out.w.after (.Free pool) (virConn.Free out.w.daemon pool)⟩

/-- The function `resourceLibvirtPoolCreate`. The record is handed on to
`resourceLibvirtPoolRead` at the end; the calls `d.Set("id", id)` and the
switches of the record's partial mode around it leave the record as
`d.SetId(id)` made it. -/
def resourceLibvirtPoolCreate {σ : Type} (X : Collaborators σ) (d : ResourceData)
    (client : Client σ) (w : World σ) : Outcome σ :=
  match client.libvirt with
  | none => ⟨some X.LibVirtConIsNil, d, w⟩
  | some virConn =>
    let poolName := d.name
    match virConn.LookupStoragePoolByName w.daemon poolName with
    | (.ok _, s) =>
      ⟨some ("storage pool '" ++ poolName ++ "' already exists"), d,
        w.after (.LookupStoragePoolByName poolName) s⟩
    | (.error _, s) =>
      let w := w.after (.LookupStoragePoolByName poolName) s
      match buildLibvirtStoragePoolDef d with
      | .error err => ⟨some ("Failed to build storage pool definition: " ++ err), d, w⟩
      | .ok poolDef =>
        match X.xmlMarshallIndented poolDef with
        | .error err => ⟨some ("Error serializing libvirt storage pool: " ++ err), d, w⟩
        | .ok data =>
          match X.transformResourceXML data d with
          | .error err => ⟨some ("Error applying XSLT stylesheet: " ++ err), d, w⟩
          | .ok data =>
            match virConn.StoragePoolDefineXML w.daemon data 0 with
            | (.error err, s) =>
              ⟨some ("Error creating libvirt storage pool: " ++ err.Error), d,
                w.after (.StoragePoolDefineXML data 0) s⟩
            | (.ok pool, s) =>
              let w := w.after (.StoragePoolDefineXML data 0) s
              let out : Outcome σ :=
                match virConn.Build w.daemon pool 0 with
                | (some err, s) =>
                  ⟨some ("Error building libvirt storage pool: " ++ err.Error), d,
                    w.after (.Build pool 0) s⟩
                | (none, s) =>
                  let w := w.after (.Build pool 0) s
                  match virConn.SetAutostart w.daemon pool true with
                  | (some err, s) =>
                    ⟨some ("Error setting up libvirt storage pool: " ++ err.Error), d,
                      w.after (.SetAutostart pool true) s⟩
                  | (none, s) =>
                    let w := w.after (.SetAutostart pool true) s
                    match virConn.Create w.daemon pool 0 with
                    | (some err, s) =>
                      ⟨some ("Error starting libvirt storage pool: " ++ err.Error), d,
                        w.after (.Create pool 0) s⟩
                    | (none, s) =>
                      let w := w.after (.Create pool 0) s
                      match virConn.Refresh w.daemon pool 0 with
                      | (some err, s) =>
                        ⟨some ("Error refreshing libvirt storage pool: " ++ err.Error), d,
                          w.after (.Refresh pool 0) s⟩
                      | (none, s) =>
                        let w := w.after (.Refresh pool 0) s
                        match virConn.GetUUIDString w.daemon pool with
                        | (.error err, s) =>
                          ⟨some ("Error retrieving libvirt pool id: " ++ err.Error), d,
                            w.after (.GetUUIDString pool) s⟩
                        | (.ok id, s) =>
                          let w := w.after (.GetUUIDString pool) s
                          let d := d.SetId id
                          match X.poolWaitForExists w.daemon id with
                          | (some err, s) => ⟨some err, d, w.after (.poolWaitForExists id) s⟩
                          | (none, s) =>
                            let w := w.after (.poolWaitForExists id) s
                            resourceLibvirtPoolRead X d client w
              -- defer pool.Free()
              ⟨out.err, out.d, out.w.after (.Free pool) (virConn.Free out.w.daemon pool)⟩

/-- The function `resourceLibvirtPoolExists`: the answer, the returned error
and the world. -/
def resourceLibvirtPoolExists {σ : Type} (X : Collaborators σ) (d : ResourceData)
    (client : Client σ) (w : World σ) : Bool × Option String × World σ :=
  match client.libvirt with
  | none => (false, some X.LibVirtConIsNil, w)
  | some virConn =>
    match virConn.LookupStoragePoolByUUIDString w.daemon d.id with
    | (.error virErr, s) =>
      let w := w.after (.LookupStoragePoolByUUIDString d.id) s
      if virErr.Code ≠ ERR_NO_STORAGE_POOL then
        (false, some ("Can't retrieve pool " ++ d.id), w)
      else
        -- does not exist, but no error
        (false, none, w)
    | (.ok pool, s) =>
      let w := w.after (.LookupStoragePoolByUUIDString d.id) s
      -- defer pool.Free()
      (true, none, w.after (.Free pool) (virConn.Free w.daemon pool))

/-! ## A small daemon for the examples

A concrete daemon and concrete collaborators, used to run the controller on
explicit inputs. Documents are written one value per line (type, name, target
path, then one line per source device). -/

/-- The lines of a text, split at the newline characters. -/
def splitLines (cs : List Char) : List (List Char) :=
  cs.foldr
    (fun c acc =>
      if c = '\n' then [] :: acc
      else match acc with
        | [] => [[c]]
        | l :: ls => (c :: l) :: ls)
    [[]]

/-- The example serializer: type, name and target path on a line each,
followed by one line per source device. -/
def simMarshal (poolDef : StoragePool) : String :=
  let path := match poolDef.Target with
    | some target => target.Path
    | none => ""
  let devices := match poolDef.Source with
    | some source => (source.Device.getD []).map StoragePoolSourceDevice.Path
    | none => []
  devices.foldl (fun text device => text ++ "\n" ++ device)
    (poolDef.Type_ ++ "\n" ++ poolDef.Name ++ "\n" ++ path)

/-- The example decoder, the inverse of `simMarshal` on well-formed text. -/
def simUnmarshal (text : String) : StoragePool × Option String :=
  match (splitLines text.data).map String.mk with
  | ty :: name :: path :: devices =>
    ({ Type_ := ty, Name := name,
       Target := if path = "" then none else some { Path := path },
       Source := if devices = [] then none
                 else some { Device := some (devices.map (fun p => { Path := p })) } },
     none)
  | _ => ({ Type_ := "", Name := "", Target := none, Source := none }, some "EOF")

/-- A pool as the example daemon keeps it. -/
structure SimPool where
  name : String
  uuid : String
  xml : String
  built : Bool
  autostart : Bool
  active : Bool
deriving DecidableEq, Repr

/-- The state of the example daemon: the defined pools (a handle is a
position in this list) and the names of the operations that are failing. -/
structure SimDaemon where
  pools : List SimPool
  failing : List String
deriving DecidableEq, Repr

/-- The "not found" error of the example daemon. -/
def simNotFound : VirError :=
  { Code := ERR_NO_STORAGE_POOL, Error := "Storage pool not found" }

/-- The error of the example daemon for an operation that is failing. -/
def simFailure (op : String) : VirError :=
  { Code := 1, Error := "internal error: " ++ op ++ " failed" }

/-- Change the pool behind a handle, or report it unknown. -/
def SimDaemon.update (s : SimDaemon) (op : String) (pool : StoragePoolRef)
    (f : SimPool → SimPool) : Option VirError × SimDaemon :=
  if op ∈ s.failing then (some (simFailure op), s)
  else match s.pools.get? pool with
    | none => (some simNotFound, s)
    | some p => (none, { s with pools := s.pools.set pool (f p) })

/-- Read a value of the pool behind a handle, or report it unknown. -/
def SimDaemon.query {α : Type} (s : SimDaemon) (op : String) (pool : StoragePoolRef)
    (f : SimPool → α) : Except VirError α × SimDaemon :=
  if op ∈ s.failing then (.error (simFailure op), s)
  else match s.pools.get? pool with
    | none => (.error simNotFound, s)
    | some p => (.ok (f p), s)

/-- Find the handle of the first pool that satisfies a test. -/
def SimDaemon.lookup (s : SimDaemon) (op : String) (test : SimPool → Bool) :
    Except VirError StoragePoolRef × SimDaemon :=
  if op ∈ s.failing then (.error (simFailure op), s)
  else match s.pools.findIdx? test with
    | none => (.error simNotFound, s)
    | some pool => (.ok pool, s)

/-- The example daemon. A defined pool takes its name from the second line of
the document and the identifier "uuid-" followed by the name. -/
def simConnect : Connect SimDaemon where
  LookupStoragePoolByName s name := s.lookup "lookup-by-name" (fun p => p.name = name)
  LookupStoragePoolByUUIDString s uuid := s.lookup "lookup-by-uuid" (fun p => p.uuid = uuid)
  StoragePoolDefineXML s xml _ :=
    if "define" ∈ s.failing then (.error (simFailure "define"), s)
    else
      let name := (simUnmarshal xml).1.Name
      (.ok s.pools.length,
        { s with pools := s.pools ++ [⟨name, "uuid-" ++ name, xml, false, false, false⟩] })
  Build s pool _ := s.update "build" pool (fun p => { p with built := true })
  SetAutostart s pool autostart := s.update "autostart" pool (fun p => { p with autostart := autostart })
  Create s pool _ := s.update "start" pool (fun p => { p with active := true })
  Refresh s pool _ := s.update "refresh" pool (fun p => p)
  GetUUIDString s pool := s.query "get-uuid" pool (fun p => p.uuid)
  GetName s pool := s.query "get-name" pool (fun p => p.name)
  GetInfo s pool := s.query "get-info" pool (fun _ => ⟨1024, 0, 1024⟩)
  GetXMLDesc s pool _ := s.query "get-xml" pool (fun p => p.xml)
  Free s _ := s

/-- The example collaborators: no stylesheet is applied, and the poll succeeds
when the identifier can be looked up. -/
def simCollaborators : Collaborators SimDaemon where
  LibVirtConIsNil := "the libvirt connection was nil"
  xmlMarshallIndented poolDef := .ok (simMarshal poolDef)
  transformResourceXML data _ := .ok data
  poolWaitForExists s uuid :=
    match s.lookup "lookup-by-uuid" (fun p => p.uuid = uuid) with
    | (.ok _, s) => (none, s)
    | (.error _, s) => (some ("timeout while waiting for pool " ++ uuid ++ " to exist"), s)
  xmlUnmarshal := simUnmarshal

/-- The example client. -/
def simClient : Client SimDaemon := { libvirt := some simConnect }

/-- A fresh record (no identifier yet) for a pool of the given name, type,
path and source devices. -/
def freshRecord (name type_ path : String) (source_devices : List String) : ResourceData :=
  { id := "", name := name, type_ := type_, capacity := 0, allocation := 0, available := 0,
    xslt := none, source_devices := source_devices, path := path }

/-- The example daemon with no pools, nothing failing and no call made yet. -/
def simEmpty : World SimDaemon := { daemon := { pools := [], failing := [] }, calls := [] }

/-- The example daemon with no pools on which lookups by identifier are
failing: what it defines does not become visible. -/
def simNotVisible : World SimDaemon :=
  { daemon := { pools := [], failing := ["lookup-by-uuid"] }, calls := [] }

/-- The outcome of a first Create of the "dir" pool "pool1" on the empty
example daemon. -/
def simFirstCreate : Outcome SimDaemon :=
  resourceLibvirtPoolCreate simCollaborators (freshRecord "pool1" "dir" "/tmp/x" []) simClient
    simEmpty

/-- The record the first Create of the example returned, read once more after
the pool has gone from the daemon. -/
def simReadGone : Outcome SimDaemon :=
  resourceLibvirtPoolRead simCollaborators simFirstCreate.d ⟨some simConnect⟩ simEmpty

/-- The example daemon with no pools on which building a pool is failing. -/
def simBuildFails : World SimDaemon :=
  { daemon := { pools := [], failing := ["build"] }, calls := [] }

/-- The example daemon with no pools on which starting a pool is failing. -/
def simStartFails : World SimDaemon :=
  { daemon := { pools := [], failing := ["start"] }, calls := [] }

/-- A Create of the "dir" pool "pool1" on the example daemon whose build is
failing. -/
def simBuildFailure : Outcome SimDaemon :=
  resourceLibvirtPoolCreate simCollaborators (freshRecord "pool1" "dir" "/tmp/x" []) simClient
    simBuildFails

/-- A Create of a "dir" pool without path on the empty example daemon. -/
def simNoDirPath : Outcome SimDaemon :=
  resourceLibvirtPoolCreate simCollaborators (freshRecord "pool1" "dir" "" []) simClient simEmpty

/-- The world the first Create of the example has left, with lookups by
identifier failing from now on for a reason other than "not found": the pool
"pool1" is still defined in it. -/
def simLookupBroken : World SimDaemon :=
  { daemon := { simFirstCreate.w.daemon with failing := ["lookup-by-uuid"] }, calls := [] }

/-- A Create of the "logical" pool "vg1" over two source devices on the empty
example daemon. -/
def simLogicalCreate : Outcome SimDaemon :=
  resourceLibvirtPoolCreate simCollaborators
    (freshRecord "vg1" "logical" "" ["/dev/loop0", "/dev/loop1"]) simClient simEmpty

/-! ## The kernel and the loopback devices -/

/-- The path of the loop control device. -/
def loopControlPath : String := "/dev/loop-control"

/-- The name of the loop device of an index (`loopDevicePattern`, "/dev/loop%d"). -/
def loopDeviceName (index : Nat) : String := "/dev/loop" ++ toString index

/-- The system call number of `ioctl` (`unix.SYS_IOCTL`). -/
def SYS_IOCTL : Nat := 16

/-- The request "get a free loop device" (`unix.LOOP_CTL_GET_FREE`). -/
def LOOP_CTL_GET_FREE : Nat := 0x4C82

/-- The request "bind a file to the loop device" (`unix.LOOP_SET_FD`). -/
def LOOP_SET_FD : Nat := 0x4C00

/-- The request "unbind the loop device" (`unix.LOOP_CLR_FD`). -/
def LOOP_CLR_FD : Nat := 0x4C01

/-- The open flag `os.O_RDWR`. -/
def O_RDWR : Nat := 2

/-- An error value of the loopback functions: a bare `syscall.Errno`, or an
error of package `os` for an operation on a path. -/
inductive GoError where
  | Errno (errno : Nat)
  | PathError (op path : String) (errno : Nat)
deriving DecidableEq, Repr

/-- An open file (`*os.File`): its descriptor and the name it was opened under. -/
structure File where
  Fd : Nat
  Name : String
deriving DecidableEq, Repr

/-- The struct `LoopDevice`. -/
structure LoopDevice where
  Device : String
  BackingFile : String
deriving DecidableEq, Repr

/-- The operating system as the loopback functions use it, over a kernel state
`σ`: the functions of packages `os`, `ioutil` and `unix` that are called, each
mapping the state before the call to its answer and the state after it.
`Syscall` answers with `r1`, `r2` and the error number (0 is success).
`fileExists` is not a call of the program: it observes whether a path names a
file. -/
structure Kernel (σ : Type) where
  Open : σ → String → Except GoError File × σ
  OpenFile : σ → String → Nat → Nat → Except GoError File × σ
  Close : σ → File → σ
  Syscall : σ → Nat → Nat → Nat → Nat → (Nat × Nat × Nat) × σ
  IoctlSetInt : σ → Nat → Nat → Nat → Option GoError × σ
  TempFile : σ → String → String → Except GoError File × σ
  Truncate : σ → File → Int → Option GoError × σ
  Remove : σ → String → Option GoError × σ
  fileExists : σ → String → Bool

/-- The calls a run can make to the operating system, as they appear in the
call log. -/
inductive OsCall where
  | Open (name : String)
  | OpenFile (name : String) (flag perm : Nat)
  | Close (file : File)
  | Syscall (trap a1 a2 a3 : Nat)
  | IoctlSetInt (fd req value : Nat)
  | TempFile (dir pattern : String)
  | Truncate (file : File) (size : Int)
  | Remove (name : String)
deriving DecidableEq, Repr

/-- Whether a call is an unbind: an `ioctl` with the request `LOOP_CLR_FD`. -/
def OsCall.isUnbind : OsCall → Bool
  | .Syscall trap _ req _ => trap = SYS_IOCTL && req = LOOP_CLR_FD
  | .IoctlSetInt _ req _ => req = LOOP_CLR_FD
  | _ => false

/-- Whether a call is a removal (of any path). -/
def OsCall.isRemove : OsCall → Bool
  | .Remove _ => true
  | _ => false

/-- The operating system as a run sees it: its state and the log of the calls
made. -/
structure Host (σ : Type) where
  kernel : σ
  calls : List OsCall

/-- The host after one more call that left the kernel in state `k`. -/
def Host.after {σ : Type} (h : Host σ) (c : OsCall) (k : σ) : Host σ :=
  { kernel := k, calls := h.calls ++ [c] }

/-- The function `NewLoopDevice`: the device or the error, and the host. -/
def NewLoopDevice {σ : Type} (K : Kernel σ) (dir pattern : String) (size : Int)
    (h : Host σ) : Except GoError LoopDevice × Host σ :=
  match K.Open h.kernel loopControlPath with
  | (.error err, k) => (.error err, h.after (.Open loopControlPath) k)
  | (.ok loopControl, k) =>
    let h := h.after (.Open loopControlPath) k
    let out : Except GoError LoopDevice × Host σ :=
      match K.Syscall h.kernel SYS_IOCTL loopControl.Fd LOOP_CTL_GET_FREE 0 with
      | ((freeLoopDevIndex, _, errno), k) =>
        let h := h.after (.Syscall SYS_IOCTL loopControl.Fd LOOP_CTL_GET_FREE 0) k
        if errno ≠ 0 then (.error (.Errno errno), h)
        else
          let loopDeviceName := loopDeviceName freeLoopDevIndex
          -- loop device must be opened with O_RDWR
          match K.OpenFile h.kernel loopDeviceName O_RDWR 0o660 with
          | (.error err, k) => (.error err, h.after (.OpenFile loopDeviceName O_RDWR 0o660) k)
          | (.ok loopDevice, k) =>
            let h := h.after (.OpenFile loopDeviceName O_RDWR 0o660) k
            let out : Except GoError LoopDevice × Host σ :=
              match K.TempFile h.kernel dir pattern with
              | (.error err, k) => (.error err, h.after (.TempFile dir pattern) k)
              | (.ok tmpfile, k) =>
                let h := h.after (.TempFile dir pattern) k
                let out : Except GoError LoopDevice × Host σ :=
                  match K.Truncate h.kernel tmpfile size with
                  | (some err, k) =>
                    let h := h.after (.Truncate tmpfile size) k
                    let h := h.after (.Remove tmpfile.Name) (K.Remove h.kernel tmpfile.Name).2
                    (.error err, h)
                  | (none, k) =>
                    let h := h.after (.Truncate tmpfile size) k
                    match K.IoctlSetInt h.kernel loopDevice.Fd LOOP_SET_FD tmpfile.Fd with
                    | (some err, k) =>
                      let h := h.after (.IoctlSetInt loopDevice.Fd LOOP_SET_FD tmpfile.Fd) k
                      let h := h.after (.Remove tmpfile.Name) (K.Remove h.kernel tmpfile.Name).2
                      (.error err, h)
                    | (none, k) =>
                      (.ok { Device := loopDevice.Name, BackingFile := tmpfile.Name },
                        h.after (.IoctlSetInt loopDevice.Fd LOOP_SET_FD tmpfile.Fd) k)
                -- defer tmpfile.Close()
                (out.1, out.2.after (.Close tmpfile) (K.Close out.2.kernel tmpfile))
            -- defer loopDevice.Close()
            (out.1, out.2.after (.Close loopDevice) (K.Close out.2.kernel loopDevice))
    -- defer loopControl.Close()
    (out.1, out.2.after (.Close loopControl) (K.Close out.2.kernel loopControl))

/-- The method `LoopDevice.Destroy`: the returned error (`none` is nil) and
the host. -/
def LoopDevice.Destroy {σ : Type} (K : Kernel σ) (device : LoopDevice) (h : Host σ) :
    Option GoError × Host σ :=
  match K.Open h.kernel device.Device with
  | (.error err, k) => (some err, h.after (.Open device.Device) k)
  | (.ok loopDevice, k) =>
    let h := h.after (.Open device.Device) k
    let out : Option GoError × Host σ :=
      match K.Syscall h.kernel SYS_IOCTL loopDevice.Fd LOOP_CLR_FD 0 with
      | ((_, _, errno), k) =>
        let h := h.after (.Syscall SYS_IOCTL loopDevice.Fd LOOP_CLR_FD 0) k
        if errno ≠ 0 then (some (.Errno errno), h)
        else
          match K.Remove h.kernel device.BackingFile with
          | (some err, k) => (some err, h.after (.Remove device.BackingFile) k)
          | (none, k) => (none, h.after (.Remove device.BackingFile) k)
    -- defer loopDevice.Close()
    (out.1, out.2.after (.Close loopDevice) (K.Close out.2.kernel loopDevice))

/-! ## A small kernel for the examples -/

/-- The state of the example kernel: the paths that exist as files, the open
descriptors with the path each was opened on, the bound loop devices with
their backing descriptor, the number of descriptors handed out so far and the
names of the operations that are failing. -/
structure SimKernel where
  files : List String
  descriptors : List (Nat × String)
  bound : List (String × Nat)
  opened : Nat
  failing : List String
deriving DecidableEq, Repr

/-- The error number `EIO`. -/
def EIO : Nat := 5

/-- The error number `ENOENT`. -/
def ENOENT : Nat := 2

/-- The error number `ENXIO`. -/
def ENXIO : Nat := 6

/-- The error number `EBUSY`. -/
def EBUSY : Nat := 16

/-- Open a path on the example kernel: it must exist as a file. -/
def SimKernel.openPath (k : SimKernel) (op name : String) : Except GoError File × SimKernel :=
  if op ∈ k.failing then (.error (.PathError "open" name EIO), k)
  else if name ∈ k.files then
    (.ok ⟨k.opened + 3, name⟩,
      { k with descriptors := k.descriptors ++ [(k.opened + 3, name)], opened := k.opened + 1 })
  else (.error (.PathError "open" name ENOENT), k)

/-- The `ioctl` requests of the example kernel: a free index is the first of
the eight loop devices that is not bound; binding needs an unbound device and
unbinding a bound one. -/
def SimKernel.ioctl (k : SimKernel) (fd req _arg : Nat) : (Nat × Nat) × SimKernel :=
  match k.descriptors.lookup fd with
  | none => ((0, 9), k)
  | some name =>
    if req = LOOP_CTL_GET_FREE then
      if "get-free" ∈ k.failing then ((0, EIO), k)
      else match (List.range 8).find? (fun i => (k.bound.lookup (loopDeviceName i)).isNone) with
        | some i => ((i, 0), k)
        | none => ((0, ENXIO), k)
    else if req = LOOP_SET_FD then
      if "bind" ∈ k.failing then ((0, EIO), k)
      else if (k.bound.lookup name).isSome then ((0, EBUSY), k)
      else ((0, 0), { k with bound := k.bound ++ [(name, _arg)] })
    else if req = LOOP_CLR_FD then
      if "unbind" ∈ k.failing then ((0, EIO), k)
      else if (k.bound.lookup name).isSome then
        ((0, 0), { k with bound := k.bound.filter (fun b => b.1 ≠ name) })
      else ((0, ENXIO), k)
    else ((0, 25), k)

/-- The example kernel. A temporary file takes the pattern followed by the
number of descriptors handed out so far as its name. -/
def simKernel : Kernel SimKernel where
  Open k name := k.openPath "open" name
  OpenFile k name _ _ := k.openPath "open" name
  Close k file := { k with descriptors := k.descriptors.filter (fun d => d.1 ≠ file.Fd) }
  Syscall k trap a1 a2 a3 :=
    if trap = SYS_IOCTL then (((k.ioctl a1 a2 a3).1.1, 0, (k.ioctl a1 a2 a3).1.2), (k.ioctl a1 a2 a3).2)
    else ((0, 0, 38), k)
  IoctlSetInt k fd req value :=
    if (k.ioctl fd req value).1.2 = 0 then (none, (k.ioctl fd req value).2)
    else (some (.Errno (k.ioctl fd req value).1.2), (k.ioctl fd req value).2)
  TempFile k dir pattern :=
    let name := (if dir = "" then "/tmp" else dir) ++ "/" ++ pattern ++ toString k.opened
    if "tempfile" ∈ k.failing then (.error (.PathError "open" name EIO), k)
    else
      (.ok ⟨k.opened + 3, name⟩,
        { k with files := k.files ++ [name],
                 descriptors := k.descriptors ++ [(k.opened + 3, name)],
                 opened := k.opened + 1 })
  Truncate k file _ :=
    if "truncate" ∈ k.failing then (some (.PathError "truncate" file.Name EIO), k)
    else (none, k)
  Remove k name :=
    if "remove" ∈ k.failing then (some (.PathError "remove" name EIO), k)
    else if name ∈ k.files then (none, { k with files := k.files.filter (fun f => f ≠ name) })
    else (some (.PathError "remove" name ENOENT), k)
  fileExists k name := name ∈ k.files

/-- The example host: the loop control device and two loop devices, nothing
open, nothing bound, and the given operations failing. -/
def simHost (failing : List String) : Host SimKernel :=
  { kernel := { files := [loopControlPath, loopDeviceName 0, loopDeviceName 1],
                descriptors := [], bound := [], opened := 0, failing := failing },
    calls := [] }

/-- The example host after a loop device over a 10 MiB file was allocated on
it, with the given operations failing from now on. -/
def simAllocated (failing : List String) : Host SimKernel :=
  { kernel := { (NewLoopDevice simKernel "" "test-" 10485760 (simHost [])).2.kernel with
                failing := failing },
    calls := [] }

/-- The loop device that allocation on the example host returns. -/
def simDevice : LoopDevice := { Device := "/dev/loop0", BackingFile := "/tmp/test-2" }

/-- An allocation on the example host on which truncating and removing a file
are both failing. -/
def simTruncateFailure : Except GoError LoopDevice × Host SimKernel :=
  NewLoopDevice simKernel "" "test-" 10485760 (simHost ["truncate", "remove"])

/-- Whether a call undoes an earlier phase: the daemon's `Undefine` or
`Destroy` of a pool. -/
def DaemonCall.isUndo : DaemonCall → Bool
  | .Undefine _ => true
  | .Destroy _ => true
  | _ => false

/-- The example daemon with no pools on which the given operations are
failing. -/
def simFailing (failing : List String) : World SimDaemon :=
  { daemon := { pools := [], failing := failing }, calls := [] }

/-! ## Theorems: the pool definition builder -/

/-- C1: `buildLibvirtStoragePoolDef` succeeds exactly when the type is "dir"
with a non-empty path or "logical" with a non-empty source-device list; an
empty path for "dir" gives the missing-path error, an empty device list for
"logical" the missing-source-devices error, each of the twelve recognized but
unimplemented types the not-supported-yet error whatever the path and devices
are, and every other type string the unrecognized-type error. -/
theorem buildLibvirtStoragePoolDef_table (d : ResourceData) :
    ((∃ poolDef, buildLibvirtStoragePoolDef d = .ok poolDef) ↔
      (d.type_ = "dir" ∧ d.path ≠ "") ∨ (d.type_ = "logical" ∧ d.source_devices ≠ [])) ∧
    (d.type_ = "dir" → d.path = "" →
      buildLibvirtStoragePoolDef d = .error errMissingPath) ∧
    (d.type_ = "logical" → d.source_devices = [] →
      buildLibvirtStoragePoolDef d = .error errMissingSourceDevices) ∧
    (d.type_ ∈ unsupportedTypes →
      buildLibvirtStoragePoolDef d = .error (errNotSupported d.type_)) ∧
    (d.type_ ≠ "dir" → d.type_ ≠ "logical" → d.type_ ∉ unsupportedTypes →
      buildLibvirtStoragePoolDef d = .error (errUnrecognized d.type_)) := by
  obtain ⟨id, name, ty, cap, alloc, avail, xslt, devs, path⟩ := d
  simp only [buildLibvirtStoragePoolDef, unsupportedTypes]
  split <;> simp_all [List.length_eq_zero]
  · by_cases h : path = "" <;> simp [h]
  · by_cases h : devs = [] <;> simp [h]

/-- C1, at concrete records: a "dir" record without a path, a "logical" record
without devices, an "rbd" record and a record of the unlisted type "nfs". -/
theorem buildLibvirtStoragePoolDef_table_witness :
    buildLibvirtStoragePoolDef ⟨"", "pool1", "dir", 0, 0, 0, none, [], ""⟩
        = .error errMissingPath ∧
      buildLibvirtStoragePoolDef ⟨"", "pool1", "logical", 0, 0, 0, none, [], "/tmp/x"⟩
        = .error errMissingSourceDevices ∧
      buildLibvirtStoragePoolDef ⟨"", "pool1", "rbd", 0, 0, 0, none, ["/dev/loop0"], "/tmp/x"⟩
        = .error (errNotSupported "rbd") ∧
      buildLibvirtStoragePoolDef ⟨"", "pool1", "nfs", 0, 0, 0, none, ["/dev/loop0"], "/tmp/x"⟩
        = .error (errUnrecognized "nfs") :=
  ⟨(buildLibvirtStoragePoolDef_table _).2.1 rfl rfl,
   (buildLibvirtStoragePoolDef_table _).2.2.1 rfl rfl,
   (buildLibvirtStoragePoolDef_table _).2.2.2.1 (by decide),
   (buildLibvirtStoragePoolDef_table _).2.2.2.2 (by decide) (by decide) (by decide)⟩

/-! ## Theorems: the pool lifecycle controller -/

/-- C2: when the daemon's lookup-by-name succeeds for the record's name,
`resourceLibvirtPoolCreate` fails with "storage pool '<name>' already exists",
the lookup is the only call it makes (no define, build, set-autostart, start
or refresh), and the record is returned as it was, so a record without
identifier stays without one. This holds in every world, also in the one a
first successful Create of the same name has left. -/
theorem resourceLibvirtPoolCreate_already_exists {σ : Type} (X : Collaborators σ)
    (d : ResourceData) (virConn : Connect σ) (w : World σ) (pool : StoragePoolRef) (s : σ)
    (hfound : virConn.LookupStoragePoolByName w.daemon d.name = (.ok pool, s)) :
    (resourceLibvirtPoolCreate X d ⟨some virConn⟩ w).err
        = some ("storage pool '" ++ d.name ++ "' already exists") ∧
      (resourceLibvirtPoolCreate X d ⟨some virConn⟩ w).w.calls
        = w.calls ++ [.LookupStoragePoolByName d.name] ∧
      (resourceLibvirtPoolCreate X d ⟨some virConn⟩ w).w.daemon = s ∧
      (resourceLibvirtPoolCreate X d ⟨some virConn⟩ w).d = d ∧
      (d.id = "" → (resourceLibvirtPoolCreate X d ⟨some virConn⟩ w).d.id = "") := by
  simp [resourceLibvirtPoolCreate, hfound, World.after]

/-- C2, on the example daemon: a first Create of "pool1" succeeds, and a second
Create of the same name right after it fails with the already-exists error and
makes no call but the lookup. -/
theorem resourceLibvirtPoolCreate_already_exists_witness :
    simFirstCreate.err = none ∧
      (resourceLibvirtPoolCreate simCollaborators (freshRecord "pool1" "dir" "/tmp/x-2" [])
          ⟨some simConnect⟩ simFirstCreate.w).err
        = some ("storage pool '" ++ "pool1" ++ "' already exists") ∧
      (resourceLibvirtPoolCreate simCollaborators (freshRecord "pool1" "dir" "/tmp/x-2" [])
          ⟨some simConnect⟩ simFirstCreate.w).w.calls
        = simFirstCreate.w.calls ++ [.LookupStoragePoolByName "pool1"] ∧
      (resourceLibvirtPoolCreate simCollaborators (freshRecord "pool1" "dir" "/tmp/x-2" [])
          ⟨some simConnect⟩ simFirstCreate.w).d.id = "" :=
  have h := resourceLibvirtPoolCreate_already_exists simCollaborators
    (freshRecord "pool1" "dir" "/tmp/x-2" []) simConnect simFirstCreate.w 0
    simFirstCreate.w.daemon (by rfl)
  ⟨by rfl, h.1, h.2.1, h.2.2.2.2 rfl⟩

/-- C3: when the daemon reports the record's identifier unknown,
`resourceLibvirtPoolRead` returns no error, sets the identifier to the empty
string and keeps every other attribute of the record. -/
theorem resourceLibvirtPoolRead_unknown {σ : Type} (X : Collaborators σ)
    (d : ResourceData) (virConn : Connect σ) (w : World σ) (err : VirError) (s : σ)
    (hlookup : virConn.LookupStoragePoolByUUIDString w.daemon d.id = (.error err, s))
    (hunknown : err.Code = ERR_NO_STORAGE_POOL) :
    (resourceLibvirtPoolRead X d ⟨some virConn⟩ w).err = none ∧
      (resourceLibvirtPoolRead X d ⟨some virConn⟩ w).d.id = "" ∧
      (resourceLibvirtPoolRead X d ⟨some virConn⟩ w).d = { d with id := "" } ∧
      (resourceLibvirtPoolRead X d ⟨some virConn⟩ w).d.name = d.name ∧
      (resourceLibvirtPoolRead X d ⟨some virConn⟩ w).d.capacity = d.capacity ∧
      (resourceLibvirtPoolRead X d ⟨some virConn⟩ w).d.allocation = d.allocation ∧
      (resourceLibvirtPoolRead X d ⟨some virConn⟩ w).d.available = d.available ∧
      (resourceLibvirtPoolRead X d ⟨some virConn⟩ w).d.path = d.path ∧
      (resourceLibvirtPoolRead X d ⟨some virConn⟩ w).d.source_devices = d.source_devices := by
  have _ := hunknown
  simp [resourceLibvirtPoolRead, hlookup, ResourceData.SetId]

/-- C3, on the example daemon: the record of "pool1" is read against a daemon
that has no pool; the read succeeds and only clears the identifier. -/
theorem resourceLibvirtPoolRead_unknown_witness :
    simFirstCreate.d.id = "uuid-pool1" ∧ simReadGone.err = none ∧ simReadGone.d.id = "" ∧
      simReadGone.d.name = "pool1" ∧ simReadGone.d.path = "/tmp/x" :=
  have h := resourceLibvirtPoolRead_unknown simCollaborators simFirstCreate.d simConnect
    simEmpty simNotFound simEmpty.daemon (by rfl) (by rfl)
  ⟨by rfl, h.1, h.2.1, h.2.2.2.1.trans (by rfl), h.2.2.2.2.2.2.2.1.trans (by rfl)⟩

/-- C6: in every run of `resourceLibvirtPoolCreate` that reaches the daemon
with a valid definition, in which define, build, set-autostart, start, refresh
and the identifier retrieval succeed and the existence poll then fails, Create
returns the error of the poll and the record holds the identifier the daemon
assigned; the poll is the last call of the run but for the release of the
handle. -/
theorem resourceLibvirtPoolCreate_poll_fails {σ : Type} (X : Collaborators σ)
    (d : ResourceData) (virConn : Connect σ) (w : World σ)
    (e0 : VirError) (poolDef : StoragePool) (data xml id err : String) (pool : StoragePoolRef)
    (s0 s1 s2 s3 s4 s5 s6 s7 : σ)
    (hfree : virConn.LookupStoragePoolByName w.daemon d.name = (.error e0, s0))
    (hvalid : buildLibvirtStoragePoolDef d = .ok poolDef)
    (hdata : X.xmlMarshallIndented poolDef = .ok data)
    (hxml : X.transformResourceXML data d = .ok xml)
    (hdefine : virConn.StoragePoolDefineXML s0 xml 0 = (.ok pool, s1))
    (hbuild : virConn.Build s1 pool 0 = (none, s2))
    (hauto : virConn.SetAutostart s2 pool true = (none, s3))
    (hstart : virConn.Create s3 pool 0 = (none, s4))
    (hrefresh : virConn.Refresh s4 pool 0 = (none, s5))
    (hid : virConn.GetUUIDString s5 pool = (.ok id, s6))
    (hpoll : X.poolWaitForExists s6 id = (some err, s7)) :
    (resourceLibvirtPoolCreate X d ⟨some virConn⟩ w).err = some err ∧
      (resourceLibvirtPoolCreate X d ⟨some virConn⟩ w).d.id = id ∧
      (resourceLibvirtPoolCreate X d ⟨some virConn⟩ w).d = { d with id := id } ∧
      (resourceLibvirtPoolCreate X d ⟨some virConn⟩ w).w.calls =
        w.calls ++ [.LookupStoragePoolByName d.name, .StoragePoolDefineXML xml 0,
          .Build pool 0, .SetAutostart pool true, .Create pool 0, .Refresh pool 0,
          .GetUUIDString pool, .poolWaitForExists id, .Free pool] := by
  simp [resourceLibvirtPoolCreate, hfree, hvalid, hdata, hxml, hdefine, hbuild, hauto, hstart,
    hrefresh, hid, hpoll, World.after, ResourceData.SetId]

/-- C6, on the example daemon: lookups by identifier are failing, so the poll
gives up after the pool "pool1" has been defined, built and started; the
record holds "uuid-pool1". -/
theorem resourceLibvirtPoolCreate_poll_fails_witness :
    (resourceLibvirtPoolCreate simCollaborators (freshRecord "pool1" "dir" "/tmp/x" [])
        ⟨some simConnect⟩ simNotVisible).err
      = some "timeout while waiting for pool uuid-pool1 to exist" ∧
    (resourceLibvirtPoolCreate simCollaborators (freshRecord "pool1" "dir" "/tmp/x" [])
        ⟨some simConnect⟩ simNotVisible).d.id = "uuid-pool1" :=
  have h := resourceLibvirtPoolCreate_poll_fails simCollaborators
    (freshRecord "pool1" "dir" "/tmp/x" []) simConnect simNotVisible
    _ _ _ _ _ _ _ _ _ _ _ _ _ _ _
    (by rfl) (by rfl) (by rfl) (by rfl) (by rfl) (by rfl) (by rfl) (by rfl) (by rfl) (by rfl)
    (by rfl)
  ⟨h.1, h.2.1⟩

/-- C7, as stated, fails on the example daemon whose build is failing: the
document of "pool1" is submitted and the pool is defined under the identifier
"uuid-pool1", the build fails, and Create returns with the record's identifier
still empty, which the daemon cannot resolve. -/
theorem resourceLibvirtPoolCreate_build_failure_leaves_no_id :
    simBuildFailure.err
        = some "Error building libvirt storage pool: internal error: build failed" ∧
      simBuildFailure.w.calls
        = [.LookupStoragePoolByName "pool1", .StoragePoolDefineXML "dir\npool1\n/tmp/x" 0,
           .Build 0 0, .Free 0] ∧
      simBuildFailure.w.daemon.pools.map SimPool.uuid = ["uuid-pool1"] ∧
      simBuildFailure.d.id = "" ∧
      (simConnect.LookupStoragePoolByUUIDString simBuildFailure.w.daemon simBuildFailure.d.id).1
        = .error simNotFound := by
  refine ⟨by rfl, by rfl, by rfl, by rfl, by rfl⟩

/-- C7, amended: in every run of `resourceLibvirtPoolCreate` in which the
pool definition was submitted successfully, a failure of the build phase or of
the start phase makes Create return that phase's error with the record exactly
as it was, its identifier not set: the identifier is never asked for, the run
ends with the failing call and the release of the handle. -/
theorem resourceLibvirtPoolCreate_phase_failure_keeps_record {σ : Type}
    (X : Collaborators σ) (d : ResourceData) (virConn : Connect σ) (w : World σ)
    (e0 : VirError) (poolDef : StoragePool) (data xml : String) (pool : StoragePoolRef)
    (s0 s1 : σ)
    (hfree : virConn.LookupStoragePoolByName w.daemon d.name = (.error e0, s0))
    (hvalid : buildLibvirtStoragePoolDef d = .ok poolDef)
    (hdata : X.xmlMarshallIndented poolDef = .ok data)
    (hxml : X.transformResourceXML data d = .ok xml)
    (hdefine : virConn.StoragePoolDefineXML s0 xml 0 = (.ok pool, s1)) :
    (∀ (e : VirError) (s2 : σ), virConn.Build s1 pool 0 = (some e, s2) →
      (resourceLibvirtPoolCreate X d ⟨some virConn⟩ w).err
          = some ("Error building libvirt storage pool: " ++ e.Error) ∧
        (resourceLibvirtPoolCreate X d ⟨some virConn⟩ w).d = d ∧
        (resourceLibvirtPoolCreate X d ⟨some virConn⟩ w).w.calls =
          w.calls ++ [.LookupStoragePoolByName d.name, .StoragePoolDefineXML xml 0,
            .Build pool 0, .Free pool]) ∧
    (∀ (e : VirError) (s2 s3 s4 : σ), virConn.Build s1 pool 0 = (none, s2) →
      virConn.SetAutostart s2 pool true = (none, s3) →
      virConn.Create s3 pool 0 = (some e, s4) →
      (resourceLibvirtPoolCreate X d ⟨some virConn⟩ w).err
          = some ("Error starting libvirt storage pool: " ++ e.Error) ∧
        (resourceLibvirtPoolCreate X d ⟨some virConn⟩ w).d = d ∧
        (resourceLibvirtPoolCreate X d ⟨some virConn⟩ w).w.calls =
          w.calls ++ [.LookupStoragePoolByName d.name, .StoragePoolDefineXML xml 0,
            .Build pool 0, .SetAutostart pool true, .Create pool 0, .Free pool]) := by
  constructor
  · intro e s2 hbuild
    simp [resourceLibvirtPoolCreate, hfree, hvalid, hdata, hxml, hdefine, hbuild, World.after]
  · intro e s2 s3 s4 hbuild hauto hstart
    simp [resourceLibvirtPoolCreate, hfree, hvalid, hdata, hxml, hdefine, hbuild, hauto, hstart,
      World.after]

/-- C7, amended, on the example daemon: with the build failing and with the
start failing, Create returns the record of "pool1" as it was, without
identifier. -/
theorem resourceLibvirtPoolCreate_phase_failure_keeps_record_witness :
    (resourceLibvirtPoolCreate simCollaborators (freshRecord "pool1" "dir" "/tmp/x" [])
        ⟨some simConnect⟩ simBuildFails).d = freshRecord "pool1" "dir" "/tmp/x" [] ∧
      (resourceLibvirtPoolCreate simCollaborators (freshRecord "pool1" "dir" "/tmp/x" [])
        ⟨some simConnect⟩ simStartFails).d = freshRecord "pool1" "dir" "/tmp/x" [] ∧
      (resourceLibvirtPoolCreate simCollaborators (freshRecord "pool1" "dir" "/tmp/x" [])
        ⟨some simConnect⟩ simStartFails).err
        = some "Error starting libvirt storage pool: internal error: start failed" :=
  have hb := (resourceLibvirtPoolCreate_phase_failure_keeps_record simCollaborators
    (freshRecord "pool1" "dir" "/tmp/x" []) simConnect simBuildFails _ _ _ _ _ _ _
    (by rfl) (by rfl) (by rfl) (by rfl) (by rfl)).1 _ _ (by rfl)
  have hs := (resourceLibvirtPoolCreate_phase_failure_keeps_record simCollaborators
    (freshRecord "pool1" "dir" "/tmp/x" []) simConnect simStartFails _ _ _ _ _ _ _
    (by rfl) (by rfl) (by rfl) (by rfl) (by rfl)).2 _ _ _ _ (by rfl) (by rfl) (by rfl)
  ⟨hb.2.1, hs.2.1, hs.1.trans (by rfl)⟩

/-- C8, as stated, fails on the example daemon: a Create of a "dir" pool
without path reports the validation error, but it has asked the daemon for the
name first; and when the name is taken, the same Create reports the
already-exists error and not the validation error. -/
theorem resourceLibvirtPoolCreate_invalid_calls_daemon :
    buildLibvirtStoragePoolDef (freshRecord "pool1" "dir" "" []) = .error errMissingPath ∧
      simNoDirPath.w.calls = [.LookupStoragePoolByName "pool1"] ∧
      simNoDirPath.w.calls ≠ [] ∧
      (resourceLibvirtPoolCreate simCollaborators (freshRecord "pool1" "dir" "" []) simClient
          simFirstCreate.w).err = some "storage pool 'pool1' already exists" := by
  refine ⟨by rfl, by rfl, ?_, by rfl⟩
  have h : simNoDirPath.w.calls = [.LookupStoragePoolByName "pool1"] := by rfl
  simp [h]

/-- C8, amended: in every run of `resourceLibvirtPoolCreate` whose definition
fails validation, the lookup of the name is the only call made to the daemon
and the record is returned as it was; when the name is free Create reports
"Failed to build storage pool definition: " followed by the validation error,
and when the name is taken it reports the already-exists error. -/
theorem resourceLibvirtPoolCreate_invalid_definition {σ : Type} (X : Collaborators σ)
    (d : ResourceData) (virConn : Connect σ) (w : World σ) (err : String)
    (hinvalid : buildLibvirtStoragePoolDef d = .error err) :
    (resourceLibvirtPoolCreate X d ⟨some virConn⟩ w).w.calls
        = w.calls ++ [.LookupStoragePoolByName d.name] ∧
      (resourceLibvirtPoolCreate X d ⟨some virConn⟩ w).w.daemon
        = (virConn.LookupStoragePoolByName w.daemon d.name).2 ∧
      (resourceLibvirtPoolCreate X d ⟨some virConn⟩ w).d = d ∧
      (resourceLibvirtPoolCreate X d ⟨some virConn⟩ w).err =
        (match (virConn.LookupStoragePoolByName w.daemon d.name).1 with
          | .error _ => some ("Failed to build storage pool definition: " ++ err)
          | .ok _ => some ("storage pool '" ++ d.name ++ "' already exists")) := by
  rcases hlookup : virConn.LookupStoragePoolByName w.daemon d.name with ⟨r, s⟩
  cases r <;> simp [resourceLibvirtPoolCreate, hlookup, hinvalid, World.after]

/-- C8, amended, on the example daemon: the Create of a "dir" pool without
path makes the lookup of the name and nothing else, and reports the wrapped
missing-path error. -/
theorem resourceLibvirtPoolCreate_invalid_definition_witness :
    (resourceLibvirtPoolCreate simCollaborators (freshRecord "pool1" "dir" "" [])
        ⟨some simConnect⟩ simEmpty).w.calls = [.LookupStoragePoolByName "pool1"] ∧
      (resourceLibvirtPoolCreate simCollaborators (freshRecord "pool1" "dir" "" [])
        ⟨some simConnect⟩ simEmpty).err
        = some ("Failed to build storage pool definition: " ++ errMissingPath) :=
  have h := resourceLibvirtPoolCreate_invalid_definition simCollaborators
    (freshRecord "pool1" "dir" "" []) simConnect simEmpty errMissingPath (by rfl)
  ⟨h.1, h.2.2.2⟩

/-- C9, the code at the failing input: the pool "pool1" is defined in the
daemon and the lookup by identifier fails with error code 1, which is not
`ERR_NO_STORAGE_POOL`. `resourceLibvirtPoolExists` returns an error, while
`resourceLibvirtPoolRead` returns no error and clears the identifier of the
record. -/
theorem resourceLibvirtPoolRead_hides_lookup_failure :
    (simConnect.LookupStoragePoolByUUIDString simLookupBroken.daemon "uuid-pool1").1
        = .error ⟨1, "internal error: lookup-by-uuid failed"⟩ ∧
      (1 : Nat) ≠ ERR_NO_STORAGE_POOL ∧
      simFirstCreate.d.id = "uuid-pool1" ∧
      (resourceLibvirtPoolExists simCollaborators simFirstCreate.d simClient simLookupBroken).2.1
        = some "Can't retrieve pool uuid-pool1" ∧
      (resourceLibvirtPoolRead simCollaborators simFirstCreate.d simClient simLookupBroken).err
        = none ∧
      (resourceLibvirtPoolRead simCollaborators simFirstCreate.d simClient simLookupBroken).d.id
        = "" := by
  refine ⟨by rfl, by decide, by rfl, by rfl, by rfl, by rfl⟩

/-- Appending one image per element to a slice, from left to right, gives the
slice followed by the images in the order of the elements. -/
theorem foldl_append_singleton {α β : Type} (f : α → β) (l : List α) (init : List β) :
    l.foldl (fun acc x => acc ++ [f x]) init = init ++ l.map f := by
  induction l generalizing init with
  | nil => simp
  | cons x xs ih => simp [ih]

/-- C10: round trip between the builder and Read. Let the builder accept the
record `d` with the definition `poolDef`, and let Read run on a record `r`
against a daemon whose document decodes to `poolDef`. Read returns no error.
For type "dir" the definition has type "dir", the configured name and the
configured non-empty path as target path, and Read sets the path of `r` to it
and leaves the source devices of `r` alone. For type "logical" Read sets the
source devices of `r` to the configured list, same length and same order, and
leaves the path of `r` alone. So when `r` carries the configured path and
devices, the path and devices after Read are the configured ones. -/
theorem buildLibvirtStoragePoolDef_read_round_trip {σ : Type} (X : Collaborators σ)
    (d r : ResourceData) (poolDef : StoragePool) (virConn : Connect σ) (w : World σ)
    (pool : StoragePoolRef) (poolName xml : String) (info : StoragePoolInfo) (s1 s2 s3 s4 : σ)
    (hbuild : buildLibvirtStoragePoolDef d = .ok poolDef)
    (hlookup : virConn.LookupStoragePoolByUUIDString w.daemon r.id = (.ok pool, s1))
    (hname : virConn.GetName s1 pool = (.ok poolName, s2))
    (hinfo : virConn.GetInfo s2 pool = (.ok info, s3))
    (hdesc : virConn.GetXMLDesc s3 pool 0 = (.ok xml, s4))
    (hdecode : X.xmlUnmarshal xml = (poolDef, none)) :
    (resourceLibvirtPoolRead X r ⟨some virConn⟩ w).err = none ∧
      (d.type_ = "dir" →
        poolDef.Type_ = "dir" ∧ poolDef.Name = d.name ∧ poolDef.Target = some ⟨d.path⟩ ∧
        d.path ≠ "" ∧
        (resourceLibvirtPoolRead X r ⟨some virConn⟩ w).d.path = d.path ∧
        (resourceLibvirtPoolRead X r ⟨some virConn⟩ w).d.source_devices = r.source_devices) ∧
      (d.type_ = "logical" →
        poolDef.Type_ = "logical" ∧ poolDef.Name = d.name ∧ d.source_devices ≠ [] ∧
        (resourceLibvirtPoolRead X r ⟨some virConn⟩ w).d.source_devices = d.source_devices ∧
        (resourceLibvirtPoolRead X r ⟨some virConn⟩ w).d.source_devices.length
          = d.source_devices.length ∧
        (resourceLibvirtPoolRead X r ⟨some virConn⟩ w).d.path = r.path) ∧
      (r.path = d.path → r.source_devices = d.source_devices →
        (resourceLibvirtPoolRead X r ⟨some virConn⟩ w).d.path = d.path ∧
        (resourceLibvirtPoolRead X r ⟨some virConn⟩ w).d.source_devices = d.source_devices) := by
  obtain ⟨id, name, ty, cap, alloc, avail, xslt, devs, path⟩ := d
  simp only [buildLibvirtStoragePoolDef] at hbuild
  split at hbuild
  · by_cases hp : path = ""
    · simp [hp] at hbuild
    · simp only [hp, if_false, Except.ok.injEq] at hbuild
      subst hbuild
      simp [resourceLibvirtPoolRead, hlookup, hname, hinfo, hdesc, hdecode, World.after, hp]
  · by_cases hl : devs = []
    · simp [hl] at hbuild
    · have hlen : ¬ devs.length = 0 := by simpa [List.length_eq_zero] using hl
      simp only [hlen, if_false, Except.ok.injEq] at hbuild
      subst hbuild
      simp [resourceLibvirtPoolRead, hlookup, hname, hinfo, hdesc, hdecode, World.after, hl,
        appendSourceDevices, foldl_append_singleton, Function.comp_def]
      intro h _
      exact h
  all_goals simp at hbuild

/-- C10, on the example daemon: the "logical" pool "vg1" is created over two
devices and its record is read back; the definition the daemon returns is the
one the builder made, and the record lists the two devices in their order. -/
theorem buildLibvirtStoragePoolDef_read_round_trip_witness :
    (resourceLibvirtPoolRead simCollaborators simLogicalCreate.d ⟨some simConnect⟩
        simLogicalCreate.w).err = none ∧
      (resourceLibvirtPoolRead simCollaborators simLogicalCreate.d ⟨some simConnect⟩
        simLogicalCreate.w).d.source_devices = ["/dev/loop0", "/dev/loop1"] ∧
      (resourceLibvirtPoolRead simCollaborators simLogicalCreate.d ⟨some simConnect⟩
        simLogicalCreate.w).d.source_devices.length = 2 :=
  have h := buildLibvirtStoragePoolDef_read_round_trip simCollaborators
    (freshRecord "vg1" "logical" "" ["/dev/loop0", "/dev/loop1"]) simLogicalCreate.d
    _ simConnect simLogicalCreate.w _ _ _ _ _ _ _ _
    (by rfl) (by rfl) (by rfl) (by rfl) (by rfl) (by rfl)
  ⟨h.1, (h.2.2.1 rfl).2.2.2.1, (h.2.2.1 rfl).2.2.2.2.1⟩

/-! ## Theorems: the loopback devices -/

/-- C4: `Destroy` removes the backing file only after the unbind has succeeded.
If opening the device node fails, Destroy returns that error and has made no
other call. If the unbind (`LOOP_CLR_FD`) returns a non-zero status, Destroy
returns that status as the error and has made no removal: the backing file is
not touched. If the unbind succeeds, the removal of the backing file is the
next call, and Destroy returns what the removal returns, so a removal failure
is returned with the device already unbound. -/
theorem LoopDevice.Destroy_unbind_before_remove {σ : Type} (K : Kernel σ)
    (device : LoopDevice) (h : Host σ) :
    (∀ (err : GoError) (k : σ), K.Open h.kernel device.Device = (.error err, k) →
      (device.Destroy K h).1 = some err ∧
      (device.Destroy K h).2.calls = h.calls ++ [.Open device.Device] ∧
      (device.Destroy K h).2.kernel = k) ∧
    (∀ (f : File) (k1 k2 : σ) (r1 r2 errno : Nat),
      K.Open h.kernel device.Device = (.ok f, k1) →
      K.Syscall k1 SYS_IOCTL f.Fd LOOP_CLR_FD 0 = ((r1, r2, errno), k2) → errno ≠ 0 →
      (device.Destroy K h).1 = some (.Errno errno) ∧
      (device.Destroy K h).2.calls
        = h.calls ++ [.Open device.Device, .Syscall SYS_IOCTL f.Fd LOOP_CLR_FD 0, .Close f] ∧
      (device.Destroy K h).2.kernel = K.Close k2 f) ∧
    (∀ (f : File) (k1 k2 : σ) (r1 r2 : Nat),
      K.Open h.kernel device.Device = (.ok f, k1) →
      K.Syscall k1 SYS_IOCTL f.Fd LOOP_CLR_FD 0 = ((r1, r2, 0), k2) →
      (device.Destroy K h).1 = (K.Remove k2 device.BackingFile).1 ∧
      (device.Destroy K h).2.calls
        = h.calls ++ [.Open device.Device, .Syscall SYS_IOCTL f.Fd LOOP_CLR_FD 0,
            .Remove device.BackingFile, .Close f] ∧
      (device.Destroy K h).2.kernel = K.Close (K.Remove k2 device.BackingFile).2 f) := by
  refine ⟨?_, ?_, ?_⟩
  · intro err k hopen
    simp [LoopDevice.Destroy, hopen, Host.after]
  · intro f k1 k2 r1 r2 errno hopen hclr hne
    simp [LoopDevice.Destroy, hopen, hclr, hne, Host.after]
  · intro f k1 k2 r1 r2 hopen hclr
    rcases hrm : K.Remove k2 device.BackingFile with ⟨r, k3⟩
    cases r <;> simp [LoopDevice.Destroy, hopen, hclr, hrm, Host.after]

/-- C4, on the example host, for the device allocation returned: with the
unbind failing Destroy returns its status and the backing file still exists;
with the removal failing Destroy returns the removal's error and the device is
no longer bound; a device whose node does not exist gives the error of the
open and no further call. -/
theorem LoopDevice.Destroy_unbind_before_remove_witness :
    ((simDevice.Destroy simKernel (simAllocated ["unbind"])).1 = some (.Errno EIO) ∧
      simKernel.fileExists (simDevice.Destroy simKernel (simAllocated ["unbind"])).2.kernel
        simDevice.BackingFile = true) ∧
    ((simDevice.Destroy simKernel (simAllocated ["remove"])).1
        = some (.PathError "remove" "/tmp/test-2" EIO) ∧
      (simDevice.Destroy simKernel (simAllocated ["remove"])).2.kernel.bound = []) ∧
    ((LoopDevice.Destroy simKernel ⟨"/dev/loop9", "/tmp/test-2"⟩ (simAllocated [])).1
        = some (.PathError "open" "/dev/loop9" ENOENT) ∧
      (LoopDevice.Destroy simKernel ⟨"/dev/loop9", "/tmp/test-2"⟩ (simAllocated [])).2.calls
        = [.Open "/dev/loop9"]) :=
  have hb := (LoopDevice.Destroy_unbind_before_remove simKernel simDevice
    (simAllocated ["unbind"])).2.1 _ _ _ _ _ _ (by rfl) (by rfl) (by decide)
  have hc := (LoopDevice.Destroy_unbind_before_remove simKernel simDevice
    (simAllocated ["remove"])).2.2 _ _ _ _ _ (by rfl) (by rfl)
  have ha := (LoopDevice.Destroy_unbind_before_remove simKernel ⟨"/dev/loop9", "/tmp/test-2"⟩
    (simAllocated [])).1 _ _ (by rfl)
  ⟨⟨hb.1, by rfl⟩, ⟨hc.1.trans (by rfl), by rfl⟩, ⟨ha.1, ha.2.1⟩⟩

/-- C5, as stated, fails on the example host on which truncating and removing
a file are both failing: the run creates the backing file "/tmp/test-2", fails
at the truncation, calls the removal, whose failure it does not look at, and
returns the error of the truncation with the file still there. -/
theorem NewLoopDevice_truncate_failure_leaves_file :
    simKernel.fileExists (simHost ["truncate", "remove"]).kernel "/tmp/test-2" = false ∧
      simTruncateFailure.1 = .error (.PathError "truncate" "/tmp/test-2" EIO) ∧
      simTruncateFailure.2.calls
        = [.Open "/dev/loop-control", .Syscall SYS_IOCTL 3 LOOP_CTL_GET_FREE 0,
           .OpenFile "/dev/loop0" O_RDWR 0o660, .TempFile "" "test-",
           .Truncate ⟨5, "/tmp/test-2"⟩ 10485760, .Remove "/tmp/test-2",
           .Close ⟨5, "/tmp/test-2"⟩, .Close ⟨4, "/dev/loop0"⟩, .Close ⟨3, "/dev/loop-control"⟩] ∧
      simKernel.fileExists simTruncateFailure.2.kernel "/tmp/test-2" = true := by
  refine ⟨by rfl, by rfl, by rfl, by rfl⟩

/-- C5, amended: in every run of `NewLoopDevice` that fails at truncating the
backing file or at binding it to the loop device, the call that follows the
failing one is the removal of the backing file this run created, whose result
is not looked at; the run returns the error of the failing call and issues no
unbind. On a kernel where a removal that succeeds leaves no file under the
name and closing a descriptor does not change which files exist, the backing
file no longer exists at the return whenever that removal has succeeded. -/
theorem NewLoopDevice_failure_removes_backing_file {σ : Type} (K : Kernel σ)
    (dir pattern : String) (size : Int) (h : Host σ)
    (loopControl loopDevice tmpfile : File) (index r2 : Nat) (k1 k2 k3 k4 : σ)
    (hcontrol : K.Open h.kernel loopControlPath = (.ok loopControl, k1))
    (hindex : K.Syscall k1 SYS_IOCTL loopControl.Fd LOOP_CTL_GET_FREE 0 = ((index, r2, 0), k2))
    (hdevice : K.OpenFile k2 (loopDeviceName index) O_RDWR 0o660 = (.ok loopDevice, k3))
    (htmp : K.TempFile k3 dir pattern = (.ok tmpfile, k4))
    (hremove : ∀ (k : σ) (name : String),
      (K.Remove k name).1 = none → K.fileExists (K.Remove k name).2 name = false)
    (hclose : ∀ (k : σ) (f : File) (name : String),
      K.fileExists (K.Close k f) name = K.fileExists k name) :
    (∀ (err : GoError) (k5 : σ), K.Truncate k4 tmpfile size = (some err, k5) →
      (NewLoopDevice K dir pattern size h).1 = .error err ∧
      (NewLoopDevice K dir pattern size h).2.calls
        = h.calls ++ [.Open loopControlPath, .Syscall SYS_IOCTL loopControl.Fd LOOP_CTL_GET_FREE 0,
            .OpenFile (loopDeviceName index) O_RDWR 0o660, .TempFile dir pattern,
            .Truncate tmpfile size, .Remove tmpfile.Name,
            .Close tmpfile, .Close loopDevice, .Close loopControl] ∧
      ((NewLoopDevice K dir pattern size h).2.calls.drop h.calls.length).any OsCall.isUnbind
        = false ∧
      ((K.Remove k5 tmpfile.Name).1 = none →
        K.fileExists (NewLoopDevice K dir pattern size h).2.kernel tmpfile.Name = false)) ∧
    (∀ (err : GoError) (k5 k6 : σ), K.Truncate k4 tmpfile size = (none, k5) →
      K.IoctlSetInt k5 loopDevice.Fd LOOP_SET_FD tmpfile.Fd = (some err, k6) →
      (NewLoopDevice K dir pattern size h).1 = .error err ∧
      (NewLoopDevice K dir pattern size h).2.calls
        = h.calls ++ [.Open loopControlPath, .Syscall SYS_IOCTL loopControl.Fd LOOP_CTL_GET_FREE 0,
            .OpenFile (loopDeviceName index) O_RDWR 0o660, .TempFile dir pattern,
            .Truncate tmpfile size, .IoctlSetInt loopDevice.Fd LOOP_SET_FD tmpfile.Fd,
            .Remove tmpfile.Name, .Close tmpfile, .Close loopDevice, .Close loopControl] ∧
      ((NewLoopDevice K dir pattern size h).2.calls.drop h.calls.length).any OsCall.isUnbind
        = false ∧
      ((K.Remove k6 tmpfile.Name).1 = none →
        K.fileExists (NewLoopDevice K dir pattern size h).2.kernel tmpfile.Name = false)) := by
  constructor
  · intro err k5 htrunc
    have hcalls : (NewLoopDevice K dir pattern size h).2.calls
        = h.calls ++ [.Open loopControlPath, .Syscall SYS_IOCTL loopControl.Fd LOOP_CTL_GET_FREE 0,
            .OpenFile (loopDeviceName index) O_RDWR 0o660, .TempFile dir pattern,
            .Truncate tmpfile size, .Remove tmpfile.Name,
            .Close tmpfile, .Close loopDevice, .Close loopControl] := by
      simp [NewLoopDevice, hcontrol, hindex, hdevice, htmp, htrunc, Host.after]
    refine ⟨?_, hcalls, ?_, ?_⟩
    · simp [NewLoopDevice, hcontrol, hindex, hdevice, htmp, htrunc, Host.after]
    · rw [hcalls]
      simp [OsCall.isUnbind, LOOP_CTL_GET_FREE, LOOP_CLR_FD]
    · intro hok
      simp [NewLoopDevice, hcontrol, hindex, hdevice, htmp, htrunc, Host.after, hclose,
        hremove k5 tmpfile.Name hok]
  · intro err k5 k6 htrunc hbind
    have hcalls : (NewLoopDevice K dir pattern size h).2.calls
        = h.calls ++ [.Open loopControlPath, .Syscall SYS_IOCTL loopControl.Fd LOOP_CTL_GET_FREE 0,
            .OpenFile (loopDeviceName index) O_RDWR 0o660, .TempFile dir pattern,
            .Truncate tmpfile size, .IoctlSetInt loopDevice.Fd LOOP_SET_FD tmpfile.Fd,
            .Remove tmpfile.Name, .Close tmpfile, .Close loopDevice, .Close loopControl] := by
      simp [NewLoopDevice, hcontrol, hindex, hdevice, htmp, htrunc, hbind, Host.after]
    refine ⟨?_, hcalls, ?_, ?_⟩
    · simp [NewLoopDevice, hcontrol, hindex, hdevice, htmp, htrunc, hbind, Host.after]
    · rw [hcalls]
      simp [OsCall.isUnbind, LOOP_CTL_GET_FREE, LOOP_CLR_FD, LOOP_SET_FD]
    · intro hok
      simp [NewLoopDevice, hcontrol, hindex, hdevice, htmp, htrunc, hbind, Host.after, hclose,
        hremove k6 tmpfile.Name hok]

/-- On the example kernel a removal that succeeds leaves no file under the name. -/
theorem simKernel_remove_law (k : SimKernel) (name : String)
    (hok : (simKernel.Remove k name).1 = none) :
    simKernel.fileExists (simKernel.Remove k name).2 name = false := by
  simp only [simKernel] at hok ⊢
  split_ifs at hok ⊢
  simp_all

/-- On the example kernel closing a descriptor does not change which files exist. -/
theorem simKernel_close_law (k : SimKernel) (f : File) (name : String) :
    simKernel.fileExists (simKernel.Close k f) name = simKernel.fileExists k name := by
  simp [simKernel]

/-- C5, amended, on the example host: with the truncation failing and with the
bind failing, allocation returns the error of the failing call and the
backing file "/tmp/test-2" it created is gone. -/
theorem NewLoopDevice_failure_removes_backing_file_witness :
    ((NewLoopDevice simKernel "" "test-" 10485760 (simHost ["truncate"])).1
        = .error (.PathError "truncate" "/tmp/test-2" EIO) ∧
      simKernel.fileExists
        (NewLoopDevice simKernel "" "test-" 10485760 (simHost ["truncate"])).2.kernel
        "/tmp/test-2" = false) ∧
    ((NewLoopDevice simKernel "" "test-" 10485760 (simHost ["bind"])).1
        = .error (.Errno EIO) ∧
      simKernel.fileExists
        (NewLoopDevice simKernel "" "test-" 10485760 (simHost ["bind"])).2.kernel
        "/tmp/test-2" = false) :=
  have ht := (NewLoopDevice_failure_removes_backing_file simKernel "" "test-" 10485760
    (simHost ["truncate"]) _ _ ⟨5, "/tmp/test-2"⟩ _ _ _ _ _ _ (by rfl) (by rfl) (by rfl) (by rfl)
    simKernel_remove_law simKernel_close_law).1 _ _ (by rfl)
  have hb := (NewLoopDevice_failure_removes_backing_file simKernel "" "test-" 10485760
    (simHost ["bind"]) _ _ ⟨5, "/tmp/test-2"⟩ _ _ _ _ _ _ (by rfl) (by rfl) (by rfl) (by rfl)
    simKernel_remove_law simKernel_close_law).2 _ _ _ (by rfl) (by rfl)
  ⟨⟨ht.1, ht.2.2.2 (by rfl)⟩, ⟨hb.1, hb.2.2.2 (by rfl)⟩⟩

/-! ## Theorems: the order of the phases -/

/-- Every run of `resourceLibvirtPoolRead` only adds calls to the log, and none
of the calls it adds is an `Undefine` or a `Destroy`. -/
theorem resourceLibvirtPoolRead_calls {σ : Type} (X : Collaborators σ) (d : ResourceData)
    (client : Client σ) (w : World σ) :
    ∃ rest, (resourceLibvirtPoolRead X d client w).w.calls = w.calls ++ rest ∧
      rest.any DaemonCall.isUndo = false := by
  rcases client with ⟨_ | virConn⟩
  · exact ⟨[], by simp [resourceLibvirtPoolRead], by simp⟩
  rcases h1 : virConn.LookupStoragePoolByUUIDString w.daemon d.id with ⟨_ | pool, s1⟩
  · exact ⟨[.LookupStoragePoolByUUIDString d.id],
      by simp [resourceLibvirtPoolRead, h1, World.after], by simp [DaemonCall.isUndo]⟩
  rcases h2 : virConn.GetName s1 pool with ⟨_ | poolName, s2⟩
  · exact ⟨[.LookupStoragePoolByUUIDString d.id, .GetName pool, .Free pool],
      by simp [resourceLibvirtPoolRead, h1, h2, World.after], by simp [DaemonCall.isUndo]⟩
  rcases h3 : virConn.GetInfo s2 pool with ⟨_ | info, s3⟩
  · exact ⟨[.LookupStoragePoolByUUIDString d.id, .GetName pool, .GetInfo pool, .Free pool],
      by simp [resourceLibvirtPoolRead, h1, h2, h3, World.after], by simp [DaemonCall.isUndo]⟩
  rcases h4 : virConn.GetXMLDesc s3 pool 0 with ⟨_ | xml, s4⟩
  · exact ⟨[.LookupStoragePoolByUUIDString d.id, .GetName pool, .GetInfo pool,
        .GetXMLDesc pool 0, .Free pool],
      by simp [resourceLibvirtPoolRead, h1, h2, h3, h4, World.after],
      by simp [DaemonCall.isUndo]⟩
  rcases h5 : X.xmlUnmarshal xml with ⟨poolDef, _ | err⟩
  all_goals
    exact ⟨[.LookupStoragePoolByUUIDString d.id, .GetName pool, .GetInfo pool,
        .GetXMLDesc pool 0, .Free pool],
      by simp [resourceLibvirtPoolRead, h1, h2, h3, h4, h5, World.after],
      by simp [DaemonCall.isUndo]⟩

/-- C11: `resourceLibvirtPoolCreate` calls the daemon phases in the fixed order
define, build, set-autostart(true), start, refresh, get-identifier. In every
run that reaches the define call, the first phase that fails ends the run:
Create returns the error with that phase's own message, the log holds the
phases up to the failing one in that order and then only the release of the
handle, and no call of the run is an `Undefine` or a `Destroy`. When all six
phases succeed the run has called them in that order, and what follows holds
no `Undefine` or `Destroy` either. -/
theorem resourceLibvirtPoolCreate_phase_order {σ : Type} (X : Collaborators σ)
    (d : ResourceData) (virConn : Connect σ) (w : World σ)
    (e0 : VirError) (poolDef : StoragePool) (data xml : String) (s0 : σ)
    (hfree : virConn.LookupStoragePoolByName w.daemon d.name = (.error e0, s0))
    (hvalid : buildLibvirtStoragePoolDef d = .ok poolDef)
    (hdata : X.xmlMarshallIndented poolDef = .ok data)
    (hxml : X.transformResourceXML data d = .ok xml) :
    (∀ (e : VirError) (s1 : σ),
      virConn.StoragePoolDefineXML s0 xml 0 = (.error e, s1) →
      (resourceLibvirtPoolCreate X d ⟨some virConn⟩ w).err = some ("Error creating libvirt storage pool: " ++ e.Error) ∧
      (resourceLibvirtPoolCreate X d ⟨some virConn⟩ w).w.calls = w.calls ++ [.LookupStoragePoolByName d.name, .StoragePoolDefineXML xml 0] ∧
      ((resourceLibvirtPoolCreate X d ⟨some virConn⟩ w).w.calls.drop w.calls.length).any DaemonCall.isUndo = false) ∧
    (∀ (pool : StoragePoolRef) (e : VirError) (s1 s2 : σ),
      virConn.StoragePoolDefineXML s0 xml 0 = (.ok pool, s1) →
      virConn.Build s1 pool 0 = (some e, s2) →
      (resourceLibvirtPoolCreate X d ⟨some virConn⟩ w).err = some ("Error building libvirt storage pool: " ++ e.Error) ∧
      (resourceLibvirtPoolCreate X d ⟨some virConn⟩ w).w.calls = w.calls ++ [.LookupStoragePoolByName d.name, .StoragePoolDefineXML xml 0,
          .Build pool 0, .Free pool] ∧
      ((resourceLibvirtPoolCreate X d ⟨some virConn⟩ w).w.calls.drop w.calls.length).any DaemonCall.isUndo = false) ∧
    (∀ (pool : StoragePoolRef) (e : VirError) (s1 s2 s3 : σ),
      virConn.StoragePoolDefineXML s0 xml 0 = (.ok pool, s1) →
      virConn.Build s1 pool 0 = (none, s2) →
      virConn.SetAutostart s2 pool true = (some e, s3) →
      (resourceLibvirtPoolCreate X d ⟨some virConn⟩ w).err = some ("Error setting up libvirt storage pool: " ++ e.Error) ∧
      (resourceLibvirtPoolCreate X d ⟨some virConn⟩ w).w.calls = w.calls ++ [.LookupStoragePoolByName d.name, .StoragePoolDefineXML xml 0,
          .Build pool 0, .SetAutostart pool true, .Free pool] ∧
      ((resourceLibvirtPoolCreate X d ⟨some virConn⟩ w).w.calls.drop w.calls.length).any DaemonCall.isUndo = false) ∧
    (∀ (pool : StoragePoolRef) (e : VirError) (s1 s2 s3 s4 : σ),
      virConn.StoragePoolDefineXML s0 xml 0 = (.ok pool, s1) →
      virConn.Build s1 pool 0 = (none, s2) →
      virConn.SetAutostart s2 pool true = (none, s3) →
      virConn.Create s3 pool 0 = (some e, s4) →
      (resourceLibvirtPoolCreate X d ⟨some virConn⟩ w).err = some ("Error starting libvirt storage pool: " ++ e.Error) ∧
      (resourceLibvirtPoolCreate X d ⟨some virConn⟩ w).w.calls = w.calls ++ [.LookupStoragePoolByName d.name, .StoragePoolDefineXML xml 0,
          .Build pool 0, .SetAutostart pool true, .Create pool 0, .Free pool] ∧
      ((resourceLibvirtPoolCreate X d ⟨some virConn⟩ w).w.calls.drop w.calls.length).any DaemonCall.isUndo = false) ∧
    (∀ (pool : StoragePoolRef) (e : VirError) (s1 s2 s3 s4 s5 : σ),
      virConn.StoragePoolDefineXML s0 xml 0 = (.ok pool, s1) →
      virConn.Build s1 pool 0 = (none, s2) →
      virConn.SetAutostart s2 pool true = (none, s3) →
      virConn.Create s3 pool 0 = (none, s4) →
      virConn.Refresh s4 pool 0 = (some e, s5) →
      (resourceLibvirtPoolCreate X d ⟨some virConn⟩ w).err = some ("Error refreshing libvirt storage pool: " ++ e.Error) ∧
      (resourceLibvirtPoolCreate X d ⟨some virConn⟩ w).w.calls = w.calls ++ [.LookupStoragePoolByName d.name, .StoragePoolDefineXML xml 0,
          .Build pool 0, .SetAutostart pool true, .Create pool 0, .Refresh pool 0, .Free pool] ∧
      ((resourceLibvirtPoolCreate X d ⟨some virConn⟩ w).w.calls.drop w.calls.length).any DaemonCall.isUndo = false) ∧
    (∀ (pool : StoragePoolRef) (e : VirError) (s1 s2 s3 s4 s5 s6 : σ),
      virConn.StoragePoolDefineXML s0 xml 0 = (.ok pool, s1) →
      virConn.Build s1 pool 0 = (none, s2) →
      virConn.SetAutostart s2 pool true = (none, s3) →
      virConn.Create s3 pool 0 = (none, s4) →
      virConn.Refresh s4 pool 0 = (none, s5) →
      virConn.GetUUIDString s5 pool = (.error e, s6) →
      (resourceLibvirtPoolCreate X d ⟨some virConn⟩ w).err = some ("Error retrieving libvirt pool id: " ++ e.Error) ∧
      (resourceLibvirtPoolCreate X d ⟨some virConn⟩ w).w.calls = w.calls ++ [.LookupStoragePoolByName d.name, .StoragePoolDefineXML xml 0,
          .Build pool 0, .SetAutostart pool true, .Create pool 0, .Refresh pool 0, .GetUUIDString pool, .Free pool] ∧
      ((resourceLibvirtPoolCreate X d ⟨some virConn⟩ w).w.calls.drop w.calls.length).any DaemonCall.isUndo = false) ∧
    (∀ (pool : StoragePoolRef) (id : String) (s1 s2 s3 s4 s5 s6 : σ),
      virConn.StoragePoolDefineXML s0 xml 0 = (.ok pool, s1) →
      virConn.Build s1 pool 0 = (none, s2) →
      virConn.SetAutostart s2 pool true = (none, s3) →
      virConn.Create s3 pool 0 = (none, s4) →
      virConn.Refresh s4 pool 0 = (none, s5) →
      virConn.GetUUIDString s5 pool = (.ok id, s6) →
      ∃ rest, (resourceLibvirtPoolCreate X d ⟨some virConn⟩ w).w.calls =
          w.calls ++ [.LookupStoragePoolByName d.name, .StoragePoolDefineXML xml 0,
            .Build pool 0, .SetAutostart pool true, .Create pool 0, .Refresh pool 0, .GetUUIDString pool] ++ rest ∧
        rest.any DaemonCall.isUndo = false) := by
  refine ⟨?_, ?_, ?_, ?_, ?_, ?_, ?_⟩
  · intro e s1 h1
    simp [resourceLibvirtPoolCreate, hfree, hvalid, hdata, hxml, h1, World.after,
      DaemonCall.isUndo]
  · intro pool e s1 s2 h1 h2
    simp [resourceLibvirtPoolCreate, hfree, hvalid, hdata, hxml, h1, h2, World.after,
      DaemonCall.isUndo]
  · intro pool e s1 s2 s3 h1 h2 h3
    simp [resourceLibvirtPoolCreate, hfree, hvalid, hdata, hxml, h1, h2, h3, World.after,
      DaemonCall.isUndo]
  · intro pool e s1 s2 s3 s4 h1 h2 h3 h4
    simp [resourceLibvirtPoolCreate, hfree, hvalid, hdata, hxml, h1, h2, h3, h4, World.after,
      DaemonCall.isUndo]
  · intro pool e s1 s2 s3 s4 s5 h1 h2 h3 h4 h5
    simp [resourceLibvirtPoolCreate, hfree, hvalid, hdata, hxml, h1, h2, h3, h4, h5,
      World.after, DaemonCall.isUndo]
  · intro pool e s1 s2 s3 s4 s5 s6 h1 h2 h3 h4 h5 h6
    simp [resourceLibvirtPoolCreate, hfree, hvalid, hdata, hxml, h1, h2, h3, h4, h5, h6,
      World.after, DaemonCall.isUndo]
  · intro pool id s1 s2 s3 s4 s5 s6 h1 h2 h3 h4 h5 h6
    rcases hpoll : X.poolWaitForExists s6 id with ⟨_ | err, s7⟩
    · obtain ⟨rest, hrest, hundo⟩ := resourceLibvirtPoolRead_calls X (d.SetId id)
        ⟨some virConn⟩
        { daemon := s7,
          calls := w.calls ++ [.LookupStoragePoolByName d.name, .StoragePoolDefineXML xml 0,
            .Build pool 0, .SetAutostart pool true, .Create pool 0, .Refresh pool 0,
            .GetUUIDString pool, .poolWaitForExists id] }
      refine ⟨[.poolWaitForExists id] ++ rest ++ [.Free pool], ?_, ?_⟩
      · simp [resourceLibvirtPoolCreate, hfree, hvalid, hdata, hxml, h1, h2, h3, h4, h5, h6,
          hpoll, World.after, hrest]
      · simpa [DaemonCall.isUndo] using hundo
    · exact ⟨[.poolWaitForExists id, .Free pool],
        by simp [resourceLibvirtPoolCreate, hfree, hvalid, hdata, hxml, h1, h2, h3, h4, h5, h6,
          hpoll, World.after],
        by simp [DaemonCall.isUndo]⟩

/-- C11, on the example daemon for the "dir" pool "pool1": with the define
failing the run ends after the define call; with the refresh failing the run
has called define, build, set-autostart, start and refresh in this order and
returns the error of the refresh, the pool staying defined and active. -/
theorem resourceLibvirtPoolCreate_phase_order_witness :
    ((resourceLibvirtPoolCreate simCollaborators (freshRecord "pool1" "dir" "/tmp/x" [])
        ⟨some simConnect⟩ (simFailing ["define"])).err
        = some "Error creating libvirt storage pool: internal error: define failed" ∧
      (resourceLibvirtPoolCreate simCollaborators (freshRecord "pool1" "dir" "/tmp/x" [])
        ⟨some simConnect⟩ (simFailing ["define"])).w.calls
        = [.LookupStoragePoolByName "pool1", .StoragePoolDefineXML "dir\npool1\n/tmp/x" 0]) ∧
    ((resourceLibvirtPoolCreate simCollaborators (freshRecord "pool1" "dir" "/tmp/x" [])
        ⟨some simConnect⟩ (simFailing ["refresh"])).err
        = some "Error refreshing libvirt storage pool: internal error: refresh failed" ∧
      (resourceLibvirtPoolCreate simCollaborators (freshRecord "pool1" "dir" "/tmp/x" [])
        ⟨some simConnect⟩ (simFailing ["refresh"])).w.calls
        = [.LookupStoragePoolByName "pool1", .StoragePoolDefineXML "dir\npool1\n/tmp/x" 0,
           .Build 0 0, .SetAutostart 0 true, .Create 0 0, .Refresh 0 0, .Free 0] ∧
      (resourceLibvirtPoolCreate simCollaborators (freshRecord "pool1" "dir" "/tmp/x" [])
        ⟨some simConnect⟩ (simFailing ["refresh"])).w.daemon.pools
        = [⟨"pool1", "uuid-pool1", "dir\npool1\n/tmp/x", true, true, true⟩]) :=
  have hd := (resourceLibvirtPoolCreate_phase_order simCollaborators
    (freshRecord "pool1" "dir" "/tmp/x" []) simConnect (simFailing ["define"]) _ _ _ _ _
    (by rfl) (by rfl) (by rfl) (by rfl)).1 _ _ (by rfl)
  have hr := (resourceLibvirtPoolCreate_phase_order simCollaborators
    (freshRecord "pool1" "dir" "/tmp/x" []) simConnect (simFailing ["refresh"]) _ _ _ _ _
    (by rfl) (by rfl) (by rfl) (by rfl)).2.2.2.2.1 _ _ _ _ _ _ _
    (by rfl) (by rfl) (by rfl) (by rfl) (by rfl)
  ⟨⟨hd.1.trans (by rfl), hd.2.1.trans (by rfl)⟩,
   ⟨hr.1.trans (by rfl), hr.2.1.trans (by rfl), by rfl⟩⟩

end libvirt
